import Mathlib

/-
Verification of the quickapi repository (src/main.py): a single-file
OAuth2 password-flow application with JWT bearer tokens.

The shallow embedding below translates the active (uncommented) code of
src/main.py.  Library calls are modelled as follows:
- pwdlib password verification (`password_hash.verify`) is a cryptographic
  black box; every function that calls it takes the verification function
  as an explicit parameter `verify : String → String → Bool`.
- PyJWT `jwt.encode` / `jwt.decode` are modelled symbolically: a token is
  its payload dict together with the signing key and algorithm; decoding
  with a key/algorithm list succeeds exactly when the key matches, the
  algorithm is in the allowed list, and the `exp` claim (when present)
  is a timestamp strictly in the future.  Timestamps and timedeltas are
  integers in seconds.
- Python dicts of JWT claims are association lists `List (String × ClaimValue)`
  where a claim value is either a string or a timestamp (the two kinds of
  value this program ever places in a payload); `dict.update` overwrites an
  existing key in place and appends a new key at the end, as in CPython.
- PyJWT (2.10 and later, the version contemporary with this code's use of
  pwdlib) additionally validates inside `jwt.decode` that a present `sub`
  claim is a string, raising `InvalidSubjectError` — a subclass of
  `InvalidTokenError` — otherwise; this is the `subOk` component of the
  decode model.
- A pydantic model with a `str | None` field rejects a non-string,
  non-None input with a `ValidationError` (pydantic v2 does not coerce
  numbers to strings); this error is not a `jwt.InvalidTokenError`, so in
  `get_current_user` it would escape the `try` block uncaught.  It is
  modelled by the `ApiError.validation` constructor, distinct from
  `ApiError.http`; because of the decode-time `sub` validation above, that
  code path is unreachable.
-/

namespace QuickApi

/-- SECRET_KEY from src/main.py line 15. -/
def SECRET_KEY : String :=
  "4190fc2a5ca3c5813532f5c06a349fff6d3a46290fc55b9809f4ef9b007b5487"

/-- ALGORITHM from src/main.py line 16. -/
def ALGORITHM : String := "HS256"

/-- ACCESS_TOKEN_EXPIRE_MINUTES from src/main.py line 17. -/
def ACCESS_TOKEN_EXPIRE_MINUTES : Int := 30

/-- A value stored in a JWT claims dict: the program only ever stores
strings (the subject) and timestamps (the expiry). -/
inductive ClaimValue where
  | str (s : String)
  | time (t : Int)
deriving DecidableEq, Repr

/-- A Python dict of JWT claims, as an insertion-ordered association list. -/
abbrev ClaimsDict := List (String × ClaimValue)

/-- Python `d.get(k)`: the value at the first matching key, if any. -/
def dictGet (d : ClaimsDict) (k : String) : Option ClaimValue :=
  (d.find? (fun p => p.1 = k)).map (fun p => p.2)

/-- Python `d.update(\x7bk: v\x7d)` as a pure operation: overwrite an
existing key in place, else append the new binding at the end. -/
def dictSet (d : ClaimsDict) (k : String) (v : ClaimValue) : ClaimsDict :=
  if (d.find? (fun p => p.1 = k)).isSome then
    d.map (fun p => if p.1 = k then (k, v) else p)
  else
    d ++ [(k, v)]

/-- The `User` pydantic model (src/main.py lines 39-44) extended with the
`hashed_password` field of `UserInDB` (lines 46-47).  `get_current_user`
and the handlers receive this full record at runtime. -/
structure UserInDB where
  username : String
  email : Option String
  full_name : Option String
  disabled : Option Bool
  hashed_password : String
deriving DecidableEq, Repr

/-- The static user table, a dict from username to user record. -/
abbrev Db := List (String × UserInDB)

/-- fake_users_db from src/main.py lines 19-27. -/
def fake_users_db : Db :=
  [("johndoe",
    ⟨"johndoe",
     some "johndoe@example.com",
     some "John Doe",
     some false,
     "$argon2id$v=19$m=65536,t=3,p=4$wagCPXjifgvUFBzq4hqe3w$CYaIb8sB+wtD+Vu/P4uod1+Qof8h+1g7bbDlBID48Rc"⟩)]

/-- get_user from src/main.py lines 65-70: `None` is never a key of the
dict, and a present key yields the `UserInDB` built from the stored dict. -/
def get_user (db : Db) (username : Option String) : Option UserInDB :=
  match username with
  | none => none
  | some u => (db.find? (fun p => p.1 = u)).map (fun p => p.2)

/-- authenticate_user from src/main.py lines 73-79.  `verify` is the
external pwdlib password-verification call (`verify_password`). -/
def authenticate_user (verify : String → String → Bool) (db : Db)
    (username password : String) : Option UserInDB :=
  match get_user db (some username) with
  | none => none
  | some user =>
    if verify password user.hashed_password then some user else none

/-- A symbolic JWT: the signed payload together with the key and the
algorithm the signature was produced with. -/
structure JwtToken where
  payload : ClaimsDict
  key : String
  alg : String
deriving DecidableEq, Repr

/-- Symbolic `jwt.encode(payload, key, algorithm=alg)`. -/
def jwt_encode (payload : ClaimsDict) (key : String) (alg : String) : JwtToken :=
  ⟨payload, key, alg⟩

/-- The `exp`-claim check performed by `jwt.decode`: absent means no
expiry check, a timestamp must be strictly in the future, and a
non-numeric `exp` is a decode error. -/
def expOk (payload : ClaimsDict) (now : Int) : Bool :=
  match dictGet payload "exp" with
  | none => true
  | some (.time t) => now < t
  | some (.str _) => false

/-- The `sub`-claim check performed by `jwt.decode` (PyJWT 2.10+): a
present subject must be a string, else `InvalidSubjectError` is raised. -/
def subOk (payload : ClaimsDict) : Bool :=
  match dictGet payload "sub" with
  | none => true
  | some (.str _) => true
  | some (.time _) => false

/-- Symbolic `jwt.decode(token, key, algorithms=algs)` at time `now`:
returns the payload when the signature verifies (same key), the algorithm
is allowed, the token is not expired, and a present `sub` claim is a
string; otherwise raises `jwt.InvalidTokenError`, modelled as `none`. -/
def jwt_decode (token : JwtToken) (key : String) (algs : List String)
    (now : Int) : Option ClaimsDict :=
  if token.key = key then
    if token.alg ∈ algs then
      if expOk token.payload now then
        if subOk token.payload then some token.payload else none
      else none
    else none
  else none

/-- create_access_token from src/main.py lines 82-90 at current time
`now`.  Python truthiness: `if expires_delta:` is false for `None` and for
the zero timedelta, in which case the 15-minute default applies.  The
result pairs the encoded token with the value of the caller's `data` dict
after the call: the source copies `data` into `to_encode` and updates only
the copy, so `data` is returned as it came in. -/
def create_access_token (now : Int) (data : ClaimsDict)
    (expires_delta : Option Int) : JwtToken × ClaimsDict :=
  let to_encode := data
  let expire : Int :=
    match expires_delta with
    | some d => if d ≠ 0 then now + d else now + 15 * 60
    | none => now + 15 * 60
  let to_encode2 := dictSet to_encode "exp" (.time expire)
  (jwt_encode to_encode2 SECRET_KEY ALGORITHM, data)

/-- An HTTPException payload: status code and detail message. -/
structure HttpError where
  status_code : Nat
  detail : String
deriving DecidableEq, Repr

/-- How a handler can fail: a raised `HTTPException`, or an uncaught
pydantic `ValidationError` (which the framework turns into a 500, not a
handler-chosen status). -/
inductive ApiError where
  | http (e : HttpError)
  | validation
deriving DecidableEq, Repr

/-- The credentials_exception of src/main.py lines 94-98. -/
def credentials_exception : HttpError :=
  ⟨401, "Could not validate credentials"⟩

/-- get_current_user from src/main.py lines 93-110 at time `now`:
decode and verify the token; a decode failure is caught and re-raised as
the 401 credentials exception; an absent `sub` raises the same 401; a
present non-string `sub` would make `TokenData(username=username)` raise
an uncaught `ValidationError` (this arm is unreachable because the decode
already rejects such tokens); otherwise the subject is looked up in the
user table, a missing user raising the 401 again. -/
def get_current_user (db : Db) (now : Int) (token : JwtToken) :
    Except ApiError UserInDB :=
  match jwt_decode token SECRET_KEY [ALGORITHM] now with
  | none => .error (.http credentials_exception)
  | some payload =>
    match dictGet payload "sub" with
    | none => .error (.http credentials_exception)
    | some (.time _) => .error .validation
    | some (.str username) =>
      match get_user db (some username) with
      | none => .error (.http credentials_exception)
      | some user => .ok user

/-- get_current_active_user from src/main.py lines 113-120: Python
truthiness of `current_user.disabled : bool | None` is exactly
`disabled = some true`. -/
def get_current_active_user (current_user : UserInDB) :
    Except ApiError UserInDB :=
  if current_user.disabled = some true then
    .error (.http ⟨400, "Inactive user"⟩)
  else
    .ok current_user

/-- The response model of POST /token (src/main.py lines 30-32). -/
structure Token where
  access_token : JwtToken
  token_type : String
deriving DecidableEq, Repr

/-- login from src/main.py lines 123-136 at time `now`, given the form's
username and password. -/
def login (verify : String → String → Bool) (db : Db) (now : Int)
    (username password : String) : Except ApiError Token :=
  match authenticate_user verify db username password with
  | none => .error (.http ⟨401, "Incorrect username or password"⟩)
  | some user =>
    let access_token_expires : Int := ACCESS_TOKEN_EXPIRE_MINUTES * 60
    let access_token :=
      (create_access_token now [("sub", .str user.username)]
        (some access_token_expires)).1
    .ok ⟨access_token, "bearer"⟩

/-- A serialized JSON value, as much of JSON as these responses need. -/
inductive Json where
  | str (s : String)
  | bool (b : Bool)
  | null
deriving DecidableEq, Repr

/-- Serialization of an optional string field. -/
def optStrJson : Option String → Json
  | none => .null
  | some s => .str s

/-- Serialization of an optional bool field. -/
def optBoolJson : Option Bool → Json
  | none => .null
  | some b => .bool b

/-- FastAPI serialization of a handler return value through
`response_model=User` (src/main.py line 139): the response object keeps
exactly the four declared fields of the `User` model, in declaration
order, and drops every other field of the returned record. -/
def serialize_user (u : UserInDB) : List (String × Json) :=
  [("username", .str u.username),
   ("email", optStrJson u.email),
   ("full_name", optStrJson u.full_name),
   ("disabled", optBoolJson u.disabled)]

/-- GET /users/me (src/main.py lines 139-143) as a whole: run the
dependency chain `get_current_user` then `get_current_active_user`, and
serialize the resulting record through `response_model=User`. -/
def read_users_me (db : Db) (now : Int) (token : JwtToken) :
    Except ApiError (List (String × Json)) :=
  match get_current_user db now token with
  | .error e => .error e
  | .ok u =>
    match get_current_active_user u with
    | .error e => .error e
    | .ok u2 => .ok (serialize_user u2)

/-- GET /users/me/items (src/main.py lines 146-150) as a whole: the same
dependency chain, then the literal one-item list. -/
def read_own_items (db : Db) (now : Int) (token : JwtToken) :
    Except ApiError (List (List (String × Json))) :=
  match get_current_user db now token with
  | .error e => .error e
  | .ok u =>
    match get_current_active_user u with
    | .error e => .error e
    | .ok u2 => .ok [[("item_id", .str "Foo"), ("owner", .str u2.username)]]

/-- POST /token in state-passing form over the user table: the source
handler only reads `fake_users_db` (there is no assignment to the table
anywhere in src/main.py), so the table after the request is the table
before it, whether the request succeeds or raises. -/
def login_state (verify : String → String → Bool) (now : Int)
    (username password : String) (db : Db) : Except ApiError Token × Db :=
  (login verify db now username password, db)

/-- Token validation in state-passing form over the user table; the
source only reads the table. -/
def get_current_user_state (now : Int) (token : JwtToken) (db : Db) :
    Except ApiError UserInDB × Db :=
  (get_current_user db now token, db)

/-- GET /users/me in state-passing form over the user table; the source
only reads the table. -/
def read_users_me_state (now : Int) (token : JwtToken) (db : Db) :
    Except ApiError (List (String × Json)) × Db :=
  (read_users_me db now token, db)

/-- GET /users/me/items in state-passing form over the user table; the
source only reads the table. -/
def read_own_items_state (now : Int) (token : JwtToken) (db : Db) :
    Except ApiError (List (List (String × Json))) × Db :=
  (read_own_items db now token, db)

/-- An exposed HTTP route of the application. -/
structure Route where
  method : String
  path : String
deriving DecidableEq, Repr

/-- The routes registered on `app` by the active (uncommented) code of
src/main.py: POST /token (line 123), GET /users/me (line 139) and
GET /users/me/items (line 146).  Every other `@app.*` decorator in the
file is commented out. -/
def app_routes : List Route :=
  [⟨"POST", "/token"⟩, ⟨"GET", "/users/me"⟩, ⟨"GET", "/users/me/items"⟩]

/-- A token-issuance route. -/
def is_token_route (r : Route) : Bool := r.path = "/token"

/-- A user-profile-retrieval route. -/
def is_profile_route (r : Route) : Bool := r.path = "/users/me"

/-- The own-items route. -/
def is_own_items_route (r : Route) : Bool := r.path = "/users/me/items"

/-- An item-CRUD echo route, as in the commented-out handlers
(paths under /items). -/
def is_item_crud_route (r : Route) : Bool :=
  r.path.data.take 6 = "/items".data

/-- The file-path echo route of the commented-out handler
`read_file` (src/main.py line 524). -/
def is_file_echo_route (r : Route) : Bool :=
  r.path = "/files/\x7bfile_path:path\x7d/"

/-- The model-name echo route of the commented-out handler
`read_model` (src/main.py line 513). -/
def is_model_echo_route (r : Route) : Bool :=
  r.path = "/models/\x7bmodel_name\x7d/"

/-! Helper lemmas about the dict model and the symbolic JWT. -/

theorem find?_map_overwrite (d : ClaimsDict) (k : String) (v : ClaimValue)
    (h : (d.find? (fun p => p.1 = k)).isSome = true) :
    (d.map (fun p => if p.1 = k then (k, v) else p)).find?
      (fun p => p.1 = k) = some (k, v) := by
  induction d with
  | nil => simp at h
  | cons q d ih =>
    by_cases hq : q.1 = k
    · simp [hq]
    · simp only [List.map_cons, hq, if_false]
      rw [List.find?_cons_of_neg _ (by simpa using hq)]
      rw [List.find?_cons_of_neg _ (by simpa using hq)] at h
      exact ih h

theorem find?_append_missing (d : ClaimsDict) (k : String) (v : ClaimValue)
    (h : ¬ (d.find? (fun p => p.1 = k)).isSome = true) :
    (d ++ [(k, v)]).find? (fun p => p.1 = k) = some (k, v) := by
  induction d with
  | nil => simp
  | cons q d ih =>
    by_cases hq : q.1 = k
    · exfalso
      apply h
      rw [List.find?_cons_of_pos _ (by simpa using hq)]
      simp
    · simp only [List.cons_append]
      rw [List.find?_cons_of_neg _ (by simpa using hq)]
      apply ih
      intro hs
      apply h
      rw [List.find?_cons_of_neg _ (by simpa using hq)]
      exact hs

theorem dictGet_dictSet_self (d : ClaimsDict) (k : String) (v : ClaimValue) :
    dictGet (dictSet d k v) k = some v := by
  unfold dictSet dictGet
  split
  · rename_i h
    rw [find?_map_overwrite d k v h]
    rfl
  · rename_i h
    rw [find?_append_missing d k v h]
    rfl

theorem jwt_decode_some_elim (token : JwtToken) (key : String)
    (algs : List String) (now : Int) (payload : ClaimsDict)
    (h : jwt_decode token key algs now = some payload) :
    payload = token.payload ∧ token.key = key ∧ token.alg ∈ algs ∧
      expOk token.payload now = true ∧ subOk token.payload = true := by
  unfold jwt_decode at h
  repeat split at h
  all_goals simp_all

/-- C9: `create_access_token` does not mutate its `data` argument — the
caller's dict after the call equals the dict before the call — even
though the encoded token's payload does gain an `exp` claim (which is
added only to the copy). -/
theorem create_access_token_preserves_data (now : Int) (data : ClaimsDict)
    (expires_delta : Option Int) :
    (create_access_token now data expires_delta).2 = data ∧
    ∃ t : Int,
      dictGet (create_access_token now data expires_delta).1.payload "exp"
        = some (.time t) := by
  refine ⟨rfl, ?_⟩
  refine ⟨(match expires_delta with
    | some d => if d ≠ 0 then now + d else now + 15 * 60
    | none => now + 15 * 60), ?_⟩
  show dictGet (dictSet data "exp" _) "exp" = _
  exact dictGet_dictSet_self data "exp" _

/-- C7: every operation of the application (login, token validation,
GET /users/me, GET /users/me/items) leaves the user table unchanged: in
state-passing form, the table coming out equals the table going in, for
every input and whether the request succeeds or raises. -/
theorem handlers_preserve_users_db (verify : String → String → Bool)
    (db : Db) (now : Int) (username password : String) (token : JwtToken) :
    (login_state verify now username password db).2 = db ∧
    (get_current_user_state now token db).2 = db ∧
    (read_users_me_state now token db).2 = db ∧
    (read_own_items_state now token db).2 = db :=
  ⟨rfl, rfl, rfl, rfl⟩

/-- C5: `get_current_active_user` rejects a user whose `disabled` flag is
`True` with HTTP 400 "Inactive user", and passes a user whose flag is
`False` or unset (`None`) through unchanged. -/
theorem inactive_user_gate (u : UserInDB) :
    (u.disabled = some true →
      get_current_active_user u = .error (.http ⟨400, "Inactive user"⟩)) ∧
    ((u.disabled = some false ∨ u.disabled = none) →
      get_current_active_user u = .ok u) := by
  constructor
  · intro h
    simp [get_current_active_user, h]
  · intro h
    rcases h with h | h <;> simp [get_current_active_user, h]

theorem inactive_user_gate_witness :
    get_current_active_user ⟨"johndoe", none, none, some true, "h"⟩
      = .error (.http ⟨400, "Inactive user"⟩) ∧
    get_current_active_user ⟨"johndoe", none, none, some false, "h"⟩
      = .ok ⟨"johndoe", none, none, some false, "h"⟩ :=
  ⟨(inactive_user_gate _).1 rfl, (inactive_user_gate _).2 (Or.inl rfl)⟩

theorem get_user_fake_db_elim (username : String) (u : UserInDB)
    (h : get_user fake_users_db (some username) = some u) :
    username = "johndoe" ∧ u.username = "johndoe" := by
  simp only [get_user, fake_users_db] at h
  by_cases hj : ("johndoe" : String) = username
  · refine ⟨hj.symm, ?_⟩
    rw [List.find?_cons_of_pos _ (by simpa using hj)] at h
    have h2 : some (⟨"johndoe", some "johndoe@example.com",
        some "John Doe", some false,
        "$argon2id$v=19$m=65536,t=3,p=4$wagCPXjifgvUFBzq4hqe3w$CYaIb8sB+wtD+Vu/P4uod1+Qof8h+1g7bbDlBID48Rc"⟩
        : UserInDB) = some u := h
    injection h2 with h3
    rw [← h3]
  · rw [List.find?_cons_of_neg _ (by simpa using hj)] at h
    simp at h

theorem jwt_decode_good (p : ClaimsDict) (now : Int)
    (hexp : expOk p now = true) (hsub : subOk p = true) :
    jwt_decode ⟨p, SECRET_KEY, ALGORITHM⟩ SECRET_KEY [ALGORITHM] now
      = some p := by
  simp [jwt_decode, hexp, hsub]

/-- C1: whenever authentication succeeds (the username is a key of the
static table and the password verifies against the stored hash), login
returns a token whose payload is exactly the subject claim (the
authenticated username) and an expiry claim set
ACCESS_TOKEN_EXPIRE_MINUTES = 30 minutes after issuance, signed with the
symmetric SECRET_KEY under HS256, carried with token_type "bearer". -/
theorem login_issues_hs256_sub_exp_token (verify : String → String → Bool)
    (now : Int) (username password : String) (u : UserInDB)
    (hu : get_user fake_users_db (some username) = some u)
    (hv : verify password u.hashed_password = true) :
    login verify fake_users_db now username password =
      .ok ⟨⟨[("sub", .str username),
             ("exp", .time (now + ACCESS_TOKEN_EXPIRE_MINUTES * 60))],
            SECRET_KEY, "HS256"⟩, "bearer"⟩ := by
  obtain ⟨hun, huu⟩ := get_user_fake_db_elim username u hu
  subst hun
  unfold login authenticate_user
  rw [hu]
  simp only [hv, if_true]
  unfold create_access_token jwt_encode ACCESS_TOKEN_EXPIRE_MINUTES ALGORITHM
  simp [dictSet, huu]

theorem login_issues_hs256_sub_exp_token_witness :
    login (fun _ _ => true) fake_users_db 0 "johndoe" "secret" =
      .ok ⟨⟨[("sub", .str "johndoe"),
             ("exp", .time (0 + ACCESS_TOKEN_EXPIRE_MINUTES * 60))],
            SECRET_KEY, "HS256"⟩, "bearer"⟩ :=
  login_issues_hs256_sub_exp_token (fun _ _ => true) 0 "johndoe" "secret"
    ⟨"johndoe", some "johndoe@example.com", some "John Doe", some false,
     "$argon2id$v=19$m=65536,t=3,p=4$wagCPXjifgvUFBzq4hqe3w$CYaIb8sB+wtD+Vu/P4uod1+Qof8h+1g7bbDlBID48Rc"⟩
    rfl rfl

/-- C3: round trip of issuance and validation — a token created by
`create_access_token` for a username that is a key of the static table,
with a positive expiry delta, validates by `get_current_user` at any time
before the expiry has passed and yields exactly the stored user record. -/
theorem issued_token_round_trips (username : String) (u : UserInDB)
    (now1 now2 d : Int)
    (hu : get_user fake_users_db (some username) = some u)
    (hd : 0 < d) (hfresh : now2 < now1 + d) :
    get_current_user fake_users_db now2
      ((create_access_token now1 [("sub", .str username)] (some d)).1)
      = .ok u := by
  have hd0 : d ≠ 0 := by omega
  have hpay : (create_access_token now1 [("sub", ClaimValue.str username)]
      (some d)).1
      = ⟨[("sub", ClaimValue.str username),
          ("exp", ClaimValue.time (now1 + d))], SECRET_KEY, ALGORITHM⟩ := by
    unfold create_access_token jwt_encode
    simp [hd0, dictSet]
  rw [hpay]
  unfold get_current_user
  rw [jwt_decode_good _ now2 (by simp [expOk, dictGet, hfresh])
    (by simp [subOk, dictGet])]
  simp only [dictGet, List.find?]
  simp [hu]

theorem issued_token_round_trips_witness :
    get_current_user fake_users_db 60
      ((create_access_token 0 [("sub", .str "johndoe")] (some 1800)).1)
      = .ok ⟨"johndoe", some "johndoe@example.com", some "John Doe",
             some false,
             "$argon2id$v=19$m=65536,t=3,p=4$wagCPXjifgvUFBzq4hqe3w$CYaIb8sB+wtD+Vu/P4uod1+Qof8h+1g7bbDlBID48Rc"⟩ :=
  issued_token_round_trips "johndoe" _ 0 60 1800 rfl (by decide) (by decide)

/-- C2: token validation decodes and verifies the presented token
(signature, algorithm, expiry) against the symmetric key, extracts the
subject, and re-looks the subject up in the user table, returning exactly
that stored record; in every failure case — decode or verification
failure, absent subject, or subject not a key of the table — it fails
with the HTTP 401 credentials exception. -/
theorem get_current_user_validates_and_relooks_up (db : Db) (now : Int)
    (token : JwtToken) :
    (∀ payload s u,
        jwt_decode token SECRET_KEY [ALGORITHM] now = some payload →
        dictGet payload "sub" = some (.str s) →
        get_user db (some s) = some u →
        get_current_user db now token = .ok u) ∧
    (∀ u, get_current_user db now token = .ok u →
        ∃ payload s,
          jwt_decode token SECRET_KEY [ALGORITHM] now = some payload ∧
          dictGet payload "sub" = some (.str s) ∧
          get_user db (some s) = some u) ∧
    (∀ e, get_current_user db now token = .error e →
        e = .http credentials_exception ∧
        credentials_exception.status_code = 401) := by
  refine ⟨?_, ?_, ?_⟩
  · intro payload s u h1 h2 h3
    simp [get_current_user, h1, h2, h3]
  · intro u h
    cases h1 : jwt_decode token SECRET_KEY [ALGORITHM] now with
    | none => simp [get_current_user, h1] at h
    | some payload =>
      cases h2 : dictGet payload "sub" with
      | none => simp [get_current_user, h1, h2] at h
      | some v =>
        cases v with
        | time t => simp [get_current_user, h1, h2] at h
        | str s =>
          cases h3 : get_user db (some s) with
          | none => simp [get_current_user, h1, h2, h3] at h
          | some u2 =>
            simp only [get_current_user, h1, h2, h3, Except.ok.injEq] at h
            exact ⟨payload, s, rfl, h2, by rw [h3, h]⟩
  · intro e h
    cases h1 : jwt_decode token SECRET_KEY [ALGORITHM] now with
    | none =>
      simp only [get_current_user, h1, Except.error.injEq] at h
      exact ⟨h.symm, rfl⟩
    | some payload =>
      have hsome := jwt_decode_some_elim token SECRET_KEY [ALGORITHM] now
        payload h1
      cases h2 : dictGet payload "sub" with
      | none =>
        simp only [get_current_user, h1, h2, Except.error.injEq] at h
        exact ⟨h.symm, rfl⟩
      | some v =>
        cases v with
        | time t =>
          exfalso
          have hs := hsome.2.2.2.2
          rw [← hsome.1] at hs
          unfold subOk at hs
          rw [h2] at hs
          simp at hs
        | str s =>
          cases h3 : get_user db (some s) with
          | none =>
            simp only [get_current_user, h1, h2, h3,
              Except.error.injEq] at h
            exact ⟨h.symm, rfl⟩
          | some u2 =>
            simp [get_current_user, h1, h2, h3] at h

theorem get_current_user_validates_witness :
    get_current_user fake_users_db 0
      ⟨[("sub", .str "johndoe"), ("exp", .time 100)], SECRET_KEY, ALGORITHM⟩
      = .ok ⟨"johndoe", some "johndoe@example.com", some "John Doe",
             some false,
             "$argon2id$v=19$m=65536,t=3,p=4$wagCPXjifgvUFBzq4hqe3w$CYaIb8sB+wtD+Vu/P4uod1+Qof8h+1g7bbDlBID48Rc"⟩ ∧
    (ApiError.http credentials_exception = .http credentials_exception ∧
     credentials_exception.status_code = 401) :=
  ⟨(get_current_user_validates_and_relooks_up fake_users_db 0
      ⟨[("sub", .str "johndoe"), ("exp", .time 100)], SECRET_KEY,
       ALGORITHM⟩).1
      [("sub", .str "johndoe"), ("exp", .time 100)] "johndoe" _ rfl rfl rfl,
   (get_current_user_validates_and_relooks_up fake_users_db 200
      ⟨[("sub", .str "johndoe"), ("exp", .time 100)], SECRET_KEY,
       ALGORITHM⟩).2.2
      (.http credentials_exception) rfl⟩

/-- C4: login fails with the 401 "Incorrect username or password" error
exactly when the submitted username is not a key of the table or the
submitted password does not verify against the stored hash; with good
credentials login returns a token. -/
theorem login_401_iff_bad_credentials (verify : String → String → Bool)
    (db : Db) (now : Int) (username password : String) :
    (login verify db now username password
        = .error (.http ⟨401, "Incorrect username or password"⟩)
      ↔ (get_user db (some username) = none ∨
          ∃ u, get_user db (some username) = some u ∧
            verify password u.hashed_password = false)) ∧
    (∀ u, get_user db (some username) = some u →
        verify password u.hashed_password = true →
        ∃ t, login verify db now username password = .ok t) := by
  constructor
  · cases hg : get_user db (some username) with
    | none => simp [login, authenticate_user, hg]
    | some u =>
      cases hv : verify password u.hashed_password with
      | false => simp [login, authenticate_user, hg, hv]
      | true => simp [login, authenticate_user, hg, hv]
  · intro u hg hv
    refine ⟨⟨(create_access_token now [("sub", .str u.username)]
        (some (ACCESS_TOKEN_EXPIRE_MINUTES * 60))).1, "bearer"⟩, ?_⟩
    simp [login, authenticate_user, hg, hv]

theorem login_401_iff_bad_credentials_witness :
    login (fun _ _ => false) fake_users_db 0 "johndoe" "bad"
      = .error (.http ⟨401, "Incorrect username or password"⟩) ∧
    ∃ t, login (fun _ _ => true) fake_users_db 0 "johndoe" "good" = .ok t :=
  ⟨(login_401_iff_bad_credentials (fun _ _ => false) fake_users_db 0
      "johndoe" "bad").1.mpr
      (Or.inr ⟨⟨"johndoe", some "johndoe@example.com", some "John Doe",
        some false,
        "$argon2id$v=19$m=65536,t=3,p=4$wagCPXjifgvUFBzq4hqe3w$CYaIb8sB+wtD+Vu/P4uod1+Qof8h+1g7bbDlBID48Rc"⟩,
        rfl, rfl⟩),
   (login_401_iff_bad_credentials (fun _ _ => true) fake_users_db 0
      "johndoe" "good").2
      ⟨"johndoe", some "johndoe@example.com", some "John Doe", some false,
       "$argon2id$v=19$m=65536,t=3,p=4$wagCPXjifgvUFBzq4hqe3w$CYaIb8sB+wtD+Vu/P4uod1+Qof8h+1g7bbDlBID48Rc"⟩
      rfl rfl⟩

/-- C6 counterexample: a validly signed, unexpired token whose subject is
a missing key of the in-memory user dictionary is rejected by
`get_current_user` with the 401 credentials exception — whose status code
is not 404. -/
theorem unknown_subject_401_not_404 :
    get_current_user fake_users_db 0
      ⟨[("sub", .str "ghost"), ("exp", .time 100)], SECRET_KEY, ALGORITHM⟩
      = .error (.http credentials_exception) ∧
    credentials_exception.status_code ≠ 404 := by
  constructor
  · rfl
  · decide

/-- C6 amended: when a request refers to a username that is a missing key
of the in-memory dictionary (a validated token whose subject is not in
the user table), the resulting error is the HTTP 401 credentials
exception, not a 404. -/
theorem unknown_subject_yields_401 (db : Db) (now : Int) (token : JwtToken)
    (payload : ClaimsDict) (s : String)
    (hdec : jwt_decode token SECRET_KEY [ALGORITHM] now = some payload)
    (hsub : dictGet payload "sub" = some (.str s))
    (hmiss : get_user db (some s) = none) :
    get_current_user db now token = .error (.http credentials_exception) ∧
    credentials_exception.status_code = 401 :=
  ⟨by simp [get_current_user, hdec, hsub, hmiss], rfl⟩

theorem unknown_subject_yields_401_witness :
    get_current_user fake_users_db 5
      ⟨[("sub", .str "nobody"), ("exp", .time 50)], SECRET_KEY, ALGORITHM⟩
      = .error (.http credentials_exception) ∧
    credentials_exception.status_code = 401 :=
  unknown_subject_yields_401 fake_users_db 5
    ⟨[("sub", .str "nobody"), ("exp", .time 50)], SECRET_KEY, ALGORITHM⟩
    [("sub", .str "nobody"), ("exp", .time 50)] "nobody" rfl rfl rfl

/-- C8: every successful GET /users/me response serializes exactly the
fields username, email, full_name and disabled — never hashed_password —
although the dependency chain internally produced a full `UserInDB`
record including the hash. -/
theorem users_me_response_hides_password (db : Db) (now : Int)
    (token : JwtToken) (fields : List (String × Json))
    (hok : read_users_me db now token = .ok fields) :
    fields.map Prod.fst = ["username", "email", "full_name", "disabled"] ∧
    "hashed_password" ∉ fields.map Prod.fst ∧
    ∃ u : UserInDB, get_current_user db now token = .ok u ∧
      fields = serialize_user u := by
  cases h1 : get_current_user db now token with
  | error e => simp [read_users_me, h1] at hok
  | ok u =>
    cases h2 : get_current_active_user u with
    | error e => simp [read_users_me, h1, h2] at hok
    | ok u2 =>
      simp only [read_users_me, h1, h2, Except.ok.injEq] at hok
      have hu2 : u2 = u := by
        unfold get_current_active_user at h2
        split at h2
        · simp at h2
        · simp only [Except.ok.injEq] at h2
          exact h2.symm
      subst hu2
      subst hok
      exact ⟨rfl, by simp [serialize_user], u2, rfl, rfl⟩

theorem users_me_response_hides_password_witness :
    ([("username", Json.str "johndoe"),
      ("email", Json.str "johndoe@example.com"),
      ("full_name", Json.str "John Doe"),
      ("disabled", Json.bool false)].map Prod.fst
      = ["username", "email", "full_name", "disabled"]) ∧
    "hashed_password" ∉
      ([("username", Json.str "johndoe"),
        ("email", Json.str "johndoe@example.com"),
        ("full_name", Json.str "John Doe"),
        ("disabled", Json.bool false)].map Prod.fst) ∧
    ∃ u : UserInDB,
      get_current_user fake_users_db 0
        ⟨[("sub", .str "johndoe"), ("exp", .time 100)], SECRET_KEY,
         ALGORITHM⟩ = .ok u ∧
      [("username", Json.str "johndoe"),
       ("email", Json.str "johndoe@example.com"),
       ("full_name", Json.str "John Doe"),
       ("disabled", Json.bool false)] = serialize_user u :=
  users_me_response_hides_password fake_users_db 0
    ⟨[("sub", .str "johndoe"), ("exp", .time 100)], SECRET_KEY, ALGORITHM⟩
    [("username", .str "johndoe"), ("email", .str "johndoe@example.com"),
     ("full_name", .str "John Doe"), ("disabled", .bool false)] rfl

/-- C10 counterexample: none of the item-CRUD echo, file-path echo or
model-name echo kinds of route is exposed by the application — all three
appear only in commented-out code, so the five-kind surface described by
the claim does not exist. -/
theorem app_surface_missing_echo_routes :
    app_routes.filter is_item_crud_route = [] ∧
    app_routes.filter is_file_echo_route = [] ∧
    app_routes.filter is_model_echo_route = [] :=
  ⟨rfl, rfl, rfl⟩

/-- C10 amended: the exposed surface consists of exactly three routes —
token issuance (POST /token), user profile retrieval (GET /users/me) and
own-items retrieval (GET /users/me/items); the item CRUD echoes, the file
path echo and the model name echo are not exposed operations. -/
theorem app_surface_routes :
    app_routes.filter is_token_route = [⟨"POST", "/token"⟩] ∧
    app_routes.filter is_profile_route = [⟨"GET", "/users/me"⟩] ∧
    app_routes.filter is_own_items_route = [⟨"GET", "/users/me/items"⟩] ∧
    app_routes.length = 3 :=
  ⟨rfl, rfl, rfl, rfl⟩

end QuickApi
